import Mathlib

/-
Verification of the websocket session protocol engine of scrum-poker
(src/server/src/websocket/session.rs).

The session is an actix actor.  Its pure logic (the handler bodies and the
continuation closures passed to then-combinators) is embedded directly as
Lean functions.  The surrounding actix runtime behavior that the source
relies on is embedded as a small operational model:

- each connection has one mailbox processed sequentially;
- `future.into_actor(self).then(closure).wait(ctx)` registers the closure as
  the continuation of the pending collaborator call and pauses the context:
  while the call is pending, the actor does not process any other incoming
  event (frames and pushes stay queued in the mailbox) until the future
  resolves, at which point the continuation runs and normal processing
  resumes (documented actix semantics of AsyncContext::wait);
- `ctx.stop()` stops the actor: after the current handler returns, no
  further queued event is processed and nothing more is written;
- `ctx.address().do_send(msg)` appends msg to the back of the own mailbox;
- a panic in a handler (unreachable!, expect) aborts the actor at once,
  skipping the rest of the handler body.

Types imported by session.rs from sibling modules that are not part of the
visible source (ClientId, DEFAULT_CLIENT_ID, UserInfo, the message enums)
are modelled from the spec, as marked on each declaration.
-/

namespace Scrum

/-- Modelled from the spec: ClientId is an opaque token assigned by the
directory service (crate::client::ClientId is not in the visible source). -/
abbrev ClientId := Nat

/-- Modelled from the spec: before assignment, the session holds a sentinel
unassigned value (crate::client::DEFAULT_CLIENT_ID is not in the visible
source). -/
def DEFAULT_CLIENT_ID : ClientId := 0

/-- Modelled from the spec: an addressable reference to exactly one room
(Addr of AppRoom, opaque here). -/
abbrev RoomAddr := Nat

/-- Modelled from the spec: the address of the directory collaborator
(Addr of AppServer, opaque here). -/
abbrev ServerAddr := Nat

/-- Modelled from the spec: a shared, immutable-after-creation user
descriptor (crate::user::info::UserInfo is not in the visible source). -/
structure UserInfo where
  name : String
deriving DecidableEq

/-- Modelled from the spec: shared wrapper around UserInfo
(crate::user::info::SharedUserInfo is not in the visible source). -/
structure SharedUserInfo where
  info : UserInfo
deriving DecidableEq

/-- Mirrors SharedUserInfo::new as used at session.rs line 132. -/
def SharedUserInfo.new (u : UserInfo) : SharedUserInfo :=
  { info := u }

/-- Modelled from the spec: opaque parameters of a CreateRoom request
(crate::common::message::request::CreateRoomParams is not in the visible
source). -/
structure CreateRoomParams where
  payload : Nat
deriving DecidableEq

/-- Modelled from the spec: parameters of a JoinRoom request carrying the
target room identifier; the room_uuid field is read at session.rs line 186. -/
structure JoinRoomParams where
  room_uuid : String
deriving DecidableEq

/-- Modelled from the spec: the request wire contract has variants
CreateRoom and JoinRoom plus reserved future variants; the Reserved
constructor stands for every variant hit by the wildcard arm at
session.rs line 141 (the enum itself is not in the visible source). -/
inductive RequestMessage where
  | CreateRoom (params : CreateRoomParams)
  | JoinRoom (params : JoinRoomParams)
  | Reserved
deriving DecidableEq

/-- Modelled from the spec: response variants include a generic
informational or close notice (RoomClosed, constructed at session.rs
line 118) and room specific payloads (the enum itself is not in the
visible source). -/
inductive ResponseMessage where
  | RoomClosed (reason : String)
  | RoomEvent (payload : String)
deriving DecidableEq

/-- A Rust Result with the error payload abstracted away: the session code
only ever matches Ok against the wildcard. -/
inductive RustResult (α : Type) where
  | Ok (a : α)
  | Err
deriving DecidableEq

/-- The Session actor state, mirroring the struct at session.rs
lines 34 to 43: user_model, client_id, server_addr, room_addr, user_info. -/
structure Session (U : Type) where
  user_model : U
  client_id : ClientId
  server_addr : ServerAddr
  room_addr : Option RoomAddr
  user_info : SharedUserInfo
deriving DecidableEq

/-- Session::new, session.rs lines 126 to 134: the fresh session carries
the sentinel DEFAULT_CLIENT_ID and no room binding. -/
def Session.new {U : Type} (server_addr : ServerAddr) (user_model : U)
    (user_info : UserInfo) : Session U :=
  { user_model := user_model
    client_id := DEFAULT_CLIENT_ID
    server_addr := server_addr
    room_addr := none
    user_info := SharedUserInfo.new user_info }

/-- A message sent to the directory collaborator (server_addr.send call
sites).  Connect mirrors ConnectServerMessage (session.rs lines 56 to 59;
the channel capability built from the own address is left implicit),
CreateRoom mirrors AppCreateRoomServerMessage (lines 154 to 160), FindRoom
mirrors AppFindRoomServerMessage (lines 184 to 190; the Phantom fields are
type level only). -/
inductive ServerCall where
  | Connect (user_info : SharedUserInfo)
  | CreateRoom (client_id : ClientId) (params : CreateRoomParams)
  | FindRoom (client_id : ClientId) (room_uuid : String)
deriving DecidableEq

/-- Which collaborator call a pending wait belongs to: the registration
issued from started, or a room binding call issued from
handle_create_room or handle_join. -/
inductive PendingKind where
  | Register
  | CreateRoomCall
  | FindRoomCall
deriving DecidableEq

/-- The message that started sends to the directory, session.rs
lines 55 to 59. -/
def started_call {U : Type} (s : Session U) : ServerCall :=
  ServerCall.Connect s.user_info

/-- The continuation closure of started, session.rs lines 61 to 67:
on Ok the returned client id is stored, otherwise ctx.stop() is called.
The boolean is true when ctx.stop() was called. -/
def started_then {U : Type} (client_id_result : RustResult ClientId)
    (actor : Session U) : Session U × Bool :=
  match client_id_result with
  | RustResult.Ok client_id => ({ actor with client_id := client_id }, false)
  | RustResult.Err => (actor, true)

/-- The call issued by handle_create_room, session.rs lines 153 to 160:
an AppCreateRoomServerMessage carrying the current client_id and the
request params. -/
def handle_create_room {U : Type} (actor : Session U)
    (params : CreateRoomParams) : ServerCall × PendingKind :=
  (ServerCall.CreateRoom actor.client_id params, PendingKind.CreateRoomCall)

/-- The continuation closure of handle_create_room, session.rs
lines 162 to 171: on Ok(Ok(room_addr)) the room binding is overwritten,
on Ok(Err) or a mailbox error ctx.stop() is called.  The boolean is true
when ctx.stop() was called. -/
def handle_create_room_then {U : Type}
    (handler_result : RustResult (RustResult RoomAddr))
    (actor : Session U) : Session U × Bool :=
  match handler_result with
  | RustResult.Ok (RustResult.Ok room_addr) =>
      ({ actor with room_addr := some room_addr }, false)
  | RustResult.Ok RustResult.Err => (actor, true)
  | RustResult.Err => (actor, true)

/-- The call issued by handle_join, session.rs lines 183 to 190: an
AppFindRoomServerMessage carrying the current client_id and the target
room_uuid. -/
def handle_join {U : Type} (actor : Session U)
    (params : JoinRoomParams) : ServerCall × PendingKind :=
  (ServerCall.FindRoom actor.client_id params.room_uuid,
   PendingKind.FindRoomCall)

/-- The continuation closure of handle_join, session.rs lines 192 to 205:
identical outcome structure to handle_create_room_then (the do_send of the
session linkage to the room is commented out in the source). -/
def handle_join_then {U : Type}
    (handler_result : RustResult (RustResult RoomAddr))
    (actor : Session U) : Session U × Bool :=
  match handler_result with
  | RustResult.Ok (RustResult.Ok room_addr) =>
      ({ actor with room_addr := some room_addr }, false)
  | RustResult.Ok RustResult.Err => (actor, true)
  | RustResult.Err => (actor, true)

/-- handle_request_message, session.rs lines 136 to 143: CreateRoom and
JoinRoom dispatch to their handlers, which issue exactly one collaborator
call each; every other variant hits unreachable!() and panics, modelled by
none. -/
def handle_request_message {U : Type} (actor : Session U) :
    RequestMessage → Option (ServerCall × PendingKind)
  | RequestMessage.CreateRoom message => some (handle_create_room actor message)
  | RequestMessage.JoinRoom message => some (handle_join actor message)
  | RequestMessage.Reserved => none

/-- The inbound websocket frame variants matched at session.rs
lines 93 to 114 (ws::Message): Text, Binary, Close with an ignored
optional reason, Nop, and Ping and Pong which fall into the final
wildcard arm. -/
inductive WsMessage where
  | Text (s : String)
  | Binary (payload : List Nat)
  | Close (reason : Option String)
  | Nop
  | Ping (s : String)
  | Pong (s : String)
deriving DecidableEq

/-- Result of one invocation of the StreamHandler handle method:
the (unchanged, the method only reads self) session, whether ctx.stop()
was called, whether the handler panicked, the collaborator call issued via
send plus wait (at most one per frame), and the message the trailing
do_send posted to the own mailbox (none exactly when the handler
panicked before reaching it). -/
structure FrameOut (U : Type) where
  sess : Session U
  stop : Bool
  panicked : Bool
  call : Option (ServerCall × PendingKind)
  selfPush : Option ResponseMessage
deriving DecidableEq

/-- The hard coded debug message posted back to the own mailbox after
every frame, session.rs lines 116 to 118. -/
def debugPush : ResponseMessage :=
  ResponseMessage.RoomClosed "Haha"

/-- StreamHandler handle, session.rs lines 87 to 119.  Text frames are
decoded with serde_json::from_str (the decoder is a parameter, it lives in
a sibling module); a decoded request is dispatched, a decode error is only
logged.  Binary is only logged.  Close calls ctx.stop().  Nop, Ping and
Pong do nothing.  Afterwards the handler unconditionally do_sends the
debug RoomClosed message to its own address; a panic inside the dispatch
(the unreachable! arm) skips that trailing statement. -/
def streamHandle {U : Type} (decode : String → Option RequestMessage)
    (actor : Session U) (msg : WsMessage) : FrameOut U :=
  match msg with
  | WsMessage.Text s =>
      match decode s with
      | some req =>
          match handle_request_message actor req with
          | some ck =>
              { sess := actor, stop := false, panicked := false,
                call := some ck, selfPush := some debugPush }
          | none =>
              { sess := actor, stop := false, panicked := true,
                call := none, selfPush := none }
      | none =>
          { sess := actor, stop := false, panicked := false,
            call := none, selfPush := some debugPush }
  | WsMessage.Binary _ =>
      { sess := actor, stop := false, panicked := false,
        call := none, selfPush := some debugPush }
  | WsMessage.Close _ =>
      { sess := actor, stop := true, panicked := false,
        call := none, selfPush := some debugPush }
  | WsMessage.Nop =>
      { sess := actor, stop := false, panicked := false,
        call := none, selfPush := some debugPush }
  | WsMessage.Ping _ =>
      { sess := actor, stop := false, panicked := false,
        call := none, selfPush := some debugPush }
  | WsMessage.Pong _ =>
      { sess := actor, stop := false, panicked := false,
        call := none, selfPush := some debugPush }

/-- Result of one invocation of the Handler for ResponseMessage: the
(unchanged) session, whether serialization panicked, and the text frames
written to the transport. -/
structure PushOut (U : Type) where
  sess : Session U
  panicked : Bool
  textOut : List String
deriving DecidableEq

/-- Handler for ResponseMessage, session.rs lines 72 to 81: the message is
serialized with serde_json::to_string (the serializer is a parameter) and
written as one text frame; a serialization error panics via expect and
writes nothing. -/
def responseHandle {U : Type} (ser : ResponseMessage → Option String)
    (actor : Session U) (msg : ResponseMessage) : PushOut U :=
  match ser msg with
  | some s => { sess := actor, panicked := false, textOut := [s] }
  | none => { sess := actor, panicked := true, textOut := [] }

/-- The payload with which a pending collaborator call resolves: the outer
RustResult is the mailbox level result of send, the inner one (for room
calls) is the result produced by the directory handler. -/
inductive ReplyPayload where
  | RegisterReply (r : RustResult ClientId)
  | RoomReply (r : RustResult (RustResult RoomAddr))
deriving DecidableEq

/-- Runs the continuation registered for the pending call of kind k on the
resolved payload p.  A payload of the wrong shape for k cannot arise from
the runtime and is ignored (none). -/
def applyReply {U : Type} (p : ReplyPayload) (k : PendingKind)
    (s : Session U) : Option (Session U × Bool) :=
  match k, p with
  | PendingKind.Register, ReplyPayload.RegisterReply r => some (started_then r s)
  | PendingKind.CreateRoomCall, ReplyPayload.RoomReply r =>
      some (handle_create_room_then r s)
  | PendingKind.FindRoomCall, ReplyPayload.RoomReply r =>
      some (handle_join_then r s)
  | _, _ => none

/-- An event queued in the mailbox of the connection: an inbound websocket
frame, or a ResponseMessage pushed to the session address. -/
inductive InEvent where
  | Frame (m : WsMessage)
  | Push (r : ResponseMessage)
deriving DecidableEq

/-- An external stimulus delivered to the connection: a mailbox event
arriving, or the resolution of the pending collaborator call. -/
inductive Event where
  | In (e : InEvent)
  | Reply (p : ReplyPayload)
deriving DecidableEq

/-- The whole per connection runtime state: the session actor state, the
stopped and panicked flags, the pending wait (if any), the queued mailbox,
the calls sent to the directory collaborator so far (in order), and the
text frames written to the transport so far (in order). -/
structure ActorState (U : Type) where
  sess : Session U
  stopped : Bool
  panicked : Bool
  waiting : Option PendingKind
  queue : List InEvent
  calls : List ServerCall
  outbox : List String
deriving DecidableEq

/-- Fuel measure for draining the mailbox: a frame may enqueue one push
(the trailing debug do_send), a push enqueues nothing, so a frame needs
two units and a push one.  Since every processed event strictly decreases
this measure, using it as fuel drains the queue to a fixpoint. -/
def queueMeasure : List InEvent → Nat
  | [] => 0
  | InEvent.Frame _ :: rest => 2 + queueMeasure rest
  | InEvent.Push _ :: rest => 1 + queueMeasure rest

/-- One mailbox draining loop, structurally recursive on the fuel: process
queued events in order while the actor is neither stopped nor waiting on a
collaborator call.  Processing a frame runs streamHandle (recording the
issued call, entering the waiting state if one was issued, appending the
do_send push to the back of the mailbox); processing a push runs
responseHandle (appending its output to the transport).  A stop or panic
halts processing. -/
def drainGo {U : Type} (decode : String → Option RequestMessage)
    (ser : ResponseMessage → Option String) :
    Nat → ActorState U → ActorState U
  | 0, a => a
  | Nat.succ n, a =>
      if a.stopped || a.waiting.isSome then a
      else
        match a.queue with
        | [] => a
        | InEvent.Frame m :: rest =>
            drainGo decode ser n
              { a with
                sess := (streamHandle decode a.sess m).sess
                stopped := (streamHandle decode a.sess m).stop ||
                  (streamHandle decode a.sess m).panicked
                panicked := a.panicked || (streamHandle decode a.sess m).panicked
                waiting := ((streamHandle decode a.sess m).call).map Prod.snd
                queue := rest ++
                  ((streamHandle decode a.sess m).selfPush).toList.map InEvent.Push
                calls := a.calls ++
                  (((streamHandle decode a.sess m).call).map Prod.fst).toList }
        | InEvent.Push r :: rest =>
            drainGo decode ser n
              { a with
                sess := (responseHandle ser a.sess r).sess
                stopped := (responseHandle ser a.sess r).panicked
                panicked := a.panicked || (responseHandle ser a.sess r).panicked
                queue := rest
                outbox := a.outbox ++ (responseHandle ser a.sess r).textOut }

/-- Drain the mailbox to a fixpoint.  queueMeasure of the current queue is
always a sufficient fuel because each processed event strictly decreases
that measure. -/
def drain {U : Type} (decode : String → Option RequestMessage)
    (ser : ResponseMessage → Option String) (a : ActorState U) : ActorState U :=
  drainGo decode ser (queueMeasure a.queue) a

/-- One external stimulus.  A mailbox event is dropped if the actor is
stopped, otherwise appended to the back of the mailbox, after which the
mailbox is drained (while waiting, draining is a no-op: this is the actix
wait semantics that session.rs relies on).  A reply is ignored if the
actor is stopped or not waiting; otherwise the registered continuation
runs and the mailbox is drained. -/
def stepEvent {U : Type} (decode : String → Option RequestMessage)
    (ser : ResponseMessage → Option String) (a : ActorState U) :
    Event → ActorState U
  | Event.In e =>
      if a.stopped then a
      else drain decode ser { a with queue := a.queue ++ [e] }
  | Event.Reply p =>
      if a.stopped then a
      else
        match a.waiting with
        | none => a
        | some k =>
            match applyReply p k a.sess with
            | none => a
            | some sb =>
                drain decode ser
                  { a with sess := sb.fst, stopped := sb.snd, waiting := none }

/-- Run a list of external stimuli in order. -/
def run {U : Type} (decode : String → Option RequestMessage)
    (ser : ResponseMessage → Option String) (a : ActorState U) :
    List Event → ActorState U
  | [] => a
  | e :: evs => run decode ser (stepEvent decode ser a e) evs

/-- The connection right after Actor::started ran, session.rs
lines 51 to 69: the fresh session (Session::new) has sent the
ConnectServerMessage registration call and waits on its reply; nothing is
queued, nothing was written. -/
def ActorState.init {U : Type} (server_addr : ServerAddr) (user_model : U)
    (user_info : UserInfo) : ActorState U :=
  { sess := Session.new server_addr user_model user_info
    stopped := false
    panicked := false
    waiting := some PendingKind.Register
    queue := []
    calls := [started_call (Session.new server_addr user_model user_info)]
    outbox := [] }

/-- True for the two room operation calls (create-room, find-room), false
for the registration call. -/
def isRoomOp : ServerCall → Bool
  | ServerCall.Connect _ => false
  | ServerCall.CreateRoom _ _ => true
  | ServerCall.FindRoom _ _ => true

/-- True exactly for a successful registration reply event. -/
def isRegOkEvent : Event → Bool
  | Event.Reply (ReplyPayload.RegisterReply (RustResult.Ok _)) => true
  | _ => false

/-- Invariant of the registration phase: while no successful registration
reply has been consumed, the client id is still the sentinel, no room
operation call has been issued, and the actor is either still waiting on
the registration call or already stopped. -/
def RegPhaseInv {U : Type} (a : ActorState U) : Prop :=
  a.sess.client_id = DEFAULT_CLIENT_ID ∧
  a.calls.all (fun c => !isRoomOp c) = true ∧
  (a.waiting = some PendingKind.Register ∨ a.stopped = true)

/-- Concrete user fixture. -/
def ui0 : UserInfo := { name := "alice" }

/-- Concrete fresh session fixture. -/
def s0 : Session Unit := Session.new 0 () ui0

/-- Concrete registered session fixture (client id 7, no binding). -/
def sActive : Session Unit :=
  { user_model := ()
    client_id := 7
    server_addr := 0
    room_addr := none
    user_info := SharedUserInfo.new ui0 }

/-- Concrete decoder that recognizes nothing. -/
def decode0 : String → Option RequestMessage := fun _ => none

/-- Concrete decoder mapping the text join to a JoinRoom request. -/
def decodeJ : String → Option RequestMessage := fun t =>
  if t = "join" then some (RequestMessage.JoinRoom { room_uuid := "room-1" })
  else none

/-- Concrete decoder mapping the text res to a reserved request kind. -/
def decodeR : String → Option RequestMessage := fun t =>
  if t = "res" then some RequestMessage.Reserved else none

/-- Concrete serializer that always succeeds. -/
def ser0 : ResponseMessage → Option String := fun _ => some "x"

/-- Concrete serializer that always fails. -/
def serFail : ResponseMessage → Option String := fun _ => none

/-- Concrete runtime state: registered session awaiting the reply of a
create-room call, empty mailbox. -/
def a0wait : ActorState Unit :=
  { sess := sActive
    stopped := false
    panicked := false
    waiting := some PendingKind.CreateRoomCall
    queue := []
    calls := []
    outbox := [] }

/-- Concrete runtime state: awaiting a create-room reply with a close
frame already queued. -/
def aCloseQ : ActorState Unit :=
  { a0wait with queue := [InEvent.Frame (WsMessage.Close none)] }

/-- Concrete stimulus list containing no successful registration reply. -/
def evs0 : List Event :=
  [Event.In (InEvent.Frame (WsMessage.Text "hi")),
   Event.Reply (ReplyPayload.RegisterReply RustResult.Err),
   Event.In (InEvent.Frame (WsMessage.Text "join"))]

/-- A stopped actor drains to itself. -/
theorem drainGo_stopped {U : Type} (decode : String → Option RequestMessage)
    (ser : ResponseMessage → Option String) (n : Nat) (a : ActorState U)
    (h : a.stopped = true) : drainGo decode ser n a = a := by
  cases n <;> simp [drainGo, h]

/-- A waiting actor drains to itself: this is the actix wait semantics. -/
theorem drainGo_waiting {U : Type} (decode : String → Option RequestMessage)
    (ser : ResponseMessage → Option String) (n : Nat) (a : ActorState U)
    (h : a.waiting.isSome = true) : drainGo decode ser n a = a := by
  cases n <;> simp [drainGo, h]

/-- A stopped actor is unchanged by drain. -/
theorem drain_stopped {U : Type} (decode : String → Option RequestMessage)
    (ser : ResponseMessage → Option String) (a : ActorState U)
    (h : a.stopped = true) : drain decode ser a = a :=
  drainGo_stopped decode ser _ a h

/-- A waiting actor is unchanged by drain. -/
theorem drain_waiting {U : Type} (decode : String → Option RequestMessage)
    (ser : ResponseMessage → Option String) (a : ActorState U)
    (h : a.waiting.isSome = true) : drain decode ser a = a :=
  drainGo_waiting decode ser _ a h

/-- A stopped actor ignores every further stimulus. -/
theorem stepEvent_stopped {U : Type} (decode : String → Option RequestMessage)
    (ser : ResponseMessage → Option String) (a : ActorState U) (e : Event)
    (h : a.stopped = true) : stepEvent decode ser a e = a := by
  cases e <;> simp [stepEvent, h]

/-- A stopped actor ignores every further stimulus list. -/
theorem run_stopped {U : Type} (decode : String → Option RequestMessage)
    (ser : ResponseMessage → Option String) (a : ActorState U)
    (evs : List Event) (h : a.stopped = true) : run decode ser a evs = a := by
  induction evs with
  | nil => rfl
  | cons e evs ih => simp [run, stepEvent_stopped decode ser a e h, ih]

/-- Claim C1: for every CreateRoom or JoinRoom request whose collaborator
call completes successfully (Ok of Ok), the continuation stores the
returned room reference as the room binding of the session and does not
stop the connection; since the session s is arbitrary, the assignment
overwrites whatever binding (including an existing one) the session held
before, so a session holds at most one binding at a time. -/
theorem spec_c1_bind_overwrites {U : Type} (s : Session U) (addr : RoomAddr) :
    handle_create_room_then (RustResult.Ok (RustResult.Ok addr)) s =
      ({ s with room_addr := some addr }, false) ∧
    handle_join_then (RustResult.Ok (RustResult.Ok addr)) s =
      ({ s with room_addr := some addr }, false) :=
  ⟨rfl, rfl⟩

/-- Claim C3: for every CreateRoom or JoinRoom request whose collaborator
call fails, either at the mailbox level (outer Err) or inside the
collaborator (Ok of Err), the continuation leaves the session, and in
particular its room binding, unchanged and stops the connection. -/
theorem spec_c3_failure_unbound_stop {U : Type} (s : Session U) :
    handle_create_room_then RustResult.Err s = (s, true) ∧
    handle_create_room_then (RustResult.Ok RustResult.Err) s = (s, true) ∧
    handle_join_then RustResult.Err s = (s, true) ∧
    handle_join_then (RustResult.Ok RustResult.Err) s = (s, true) :=
  ⟨rfl, rfl, rfl, rfl⟩

/-- Claim C5: a text frame that does not decode to a known request, and
any binary frame, are handled non-fatally: the session is unchanged, no
stop and no panic occur, no collaborator call is issued, and the only
output is the debug instrumentation push. -/
theorem spec_c5_malformed_nonfatal {U : Type}
    (decode : String → Option RequestMessage) (s : Session U) (t : String)
    (b : List Nat) (h : decode t = none) :
    streamHandle decode s (WsMessage.Text t) =
      { sess := s, stop := false, panicked := false, call := none,
        selfPush := some debugPush } ∧
    streamHandle decode s (WsMessage.Binary b) =
      { sess := s, stop := false, panicked := false, call := none,
        selfPush := some debugPush } := by
  constructor
  · simp [streamHandle, h]
  · rfl

/-- Witness for claim C5 at a concrete decoder, session and frame. -/
theorem spec_c5_witness :
    decode0 "oops" = none ∧
    streamHandle decode0 s0 (WsMessage.Text "oops") =
      { sess := s0, stop := false, panicked := false, call := none,
        selfPush := some debugPush } ∧
    streamHandle decode0 s0 (WsMessage.Binary [0, 1]) =
      { sess := s0, stop := false, panicked := false, call := none,
        selfPush := some debugPush } :=
  ⟨rfl, (spec_c5_malformed_nonfatal decode0 s0 "oops" [0, 1] rfl).1,
    (spec_c5_malformed_nonfatal decode0 s0 "oops" [0, 1] rfl).2⟩

/-- Claim C7: a decoded request that is neither CreateRoom nor JoinRoom
hits the wildcard arm of the dispatcher, which is unreachable! and
panics: no collaborator call is produced, no stop is requested, the
session is untouched and no response (not even the trailing debug push)
is emitted. -/
theorem spec_c7_unreachable_aborts {U : Type}
    (decode : String → Option RequestMessage) (s : Session U) (t : String)
    (h : decode t = some RequestMessage.Reserved) :
    handle_request_message s RequestMessage.Reserved = none ∧
    streamHandle decode s (WsMessage.Text t) =
      { sess := s, stop := false, panicked := true, call := none,
        selfPush := none } := by
  constructor
  · rfl
  · simp [streamHandle, h, handle_request_message]

/-- Witness for claim C7 at a concrete decoder, session and frame. -/
theorem spec_c7_witness :
    decodeR "res" = some RequestMessage.Reserved ∧
    streamHandle decodeR s0 (WsMessage.Text "res") =
      { sess := s0, stop := false, panicked := true, call := none,
        selfPush := none } :=
  ⟨rfl, (spec_c7_unreachable_aborts decodeR s0 "res" rfl).2⟩

/-- Claim C9: every frame handler invocation that completes (does not
panic in the unreachable! arm) posts exactly the debug RoomClosed push to
the own mailbox, on every dispatch path and for every frame kind. -/
theorem spec_c9_debug_push {U : Type}
    (decode : String → Option RequestMessage) (s : Session U)
    (m : WsMessage) (h : (streamHandle decode s m).panicked = false) :
    (streamHandle decode s m).selfPush = some debugPush := by
  cases m with
  | Text t =>
      revert h
      cases hd : decode t with
      | none => intro _; simp [streamHandle, hd]
      | some req =>
          cases req <;>
            simp [streamHandle, hd, handle_request_message, handle_create_room,
              handle_join]
  | Binary b => rfl
  | Close r => rfl
  | Nop => rfl
  | Ping s => rfl
  | Pong s => rfl

/-- Witness for claim C9 at a concrete decoder, session and frame. -/
theorem spec_c9_witness :
    (streamHandle decodeJ s0 (WsMessage.Text "join")).panicked = false ∧
    (streamHandle decodeJ s0 (WsMessage.Text "join")).selfPush =
      some debugPush :=
  ⟨rfl, spec_c9_debug_push decodeJ s0 (WsMessage.Text "join") rfl⟩

/-- Claim C10: a pushed ResponseMessage whose serialization succeeds is
written as exactly one text frame holding the serialized string, without
touching the session; when serialization fails the handler panics (the
expect call) and writes nothing, rather than dropping the message silently
or writing a partial frame. -/
theorem spec_c10_push_serialization {U : Type}
    (ser : ResponseMessage → Option String) (s : Session U)
    (msg : ResponseMessage) (out : String) :
    (ser msg = some out →
      responseHandle ser s msg =
        { sess := s, panicked := false, textOut := [out] }) ∧
    (ser msg = none →
      responseHandle ser s msg =
        { sess := s, panicked := true, textOut := [] }) := by
  constructor
  · intro h; simp [responseHandle, h]
  · intro h; simp [responseHandle, h]

/-- Witness for claim C10 at concrete serializers and messages. -/
theorem spec_c10_witness :
    responseHandle ser0 s0 debugPush =
      { sess := s0, panicked := false, textOut := ["x"] } ∧
    responseHandle serFail s0 debugPush =
      { sess := s0, panicked := true, textOut := [] } :=
  ⟨(spec_c10_push_serialization ser0 s0 debugPush "x").1 rfl,
    (spec_c10_push_serialization serFail s0 debugPush "x").2 rfl⟩

/-- Claim C2: the registration failure continuation stops the connection
and leaves the session untouched; the fresh session carries the sentinel
client id; and in the runtime model, resolving the registration call of a
freshly started connection with a failure leaves a stopped actor whose
client id is still the sentinel, no matter what happens afterwards. -/
theorem spec_c2_registration_failure {U : Type} (sa : ServerAddr) (um : U)
    (ui : UserInfo) (decode : String → Option RequestMessage)
    (ser : ResponseMessage → Option String) (evs : List Event) :
    started_then RustResult.Err (Session.new sa um ui) =
      (Session.new sa um ui, true) ∧
    (Session.new sa um ui).client_id = DEFAULT_CLIENT_ID ∧
    (run decode ser
      (stepEvent decode ser (ActorState.init sa um ui)
        (Event.Reply (ReplyPayload.RegisterReply RustResult.Err))) evs).stopped
      = true ∧
    (run decode ser
      (stepEvent decode ser (ActorState.init sa um ui)
        (Event.Reply (ReplyPayload.RegisterReply RustResult.Err)))
      evs).sess.client_id = DEFAULT_CLIENT_ID := by
  have h1 : stepEvent decode ser (ActorState.init sa um ui)
      (Event.Reply (ReplyPayload.RegisterReply RustResult.Err)) =
      { sess := Session.new sa um ui, stopped := true, panicked := false,
        waiting := none, queue := [],
        calls := [started_call (Session.new sa um ui)], outbox := [] } := by
    simp [stepEvent, ActorState.init, applyReply, started_then, drain,
      queueMeasure, drainGo]
  have h2 : run decode ser
      (stepEvent decode ser (ActorState.init sa um ui)
        (Event.Reply (ReplyPayload.RegisterReply RustResult.Err))) evs =
      { sess := Session.new sa um ui, stopped := true, panicked := false,
        waiting := none, queue := [],
        calls := [started_call (Session.new sa um ui)], outbox := [] } := by
    rw [h1]; exact run_stopped decode ser _ evs rfl
  exact ⟨rfl, rfl, by rw [h2], by rw [h2]; rfl⟩

/-- One stimulus that is not a successful registration reply preserves the
registration phase invariant. -/
theorem regPhase_step {U : Type} (decode : String → Option RequestMessage)
    (ser : ResponseMessage → Option String) (a : ActorState U) (e : Event)
    (hInv : RegPhaseInv a) (he : isRegOkEvent e = false) :
    RegPhaseInv (stepEvent decode ser a e) := by
  obtain ⟨hcid, hcalls, hw⟩ := hInv
  cases e with
  | In ie =>
      by_cases hs : a.stopped = true
      · rw [stepEvent_stopped decode ser a _ hs]; exact ⟨hcid, hcalls, hw⟩
      · have hw2 : a.waiting = some PendingKind.Register := by
          cases hw with
          | inl h => exact h
          | inr h => exact absurd h hs
        simp only [stepEvent]
        rw [if_neg hs,
          drain_waiting decode ser _ (by simp [hw2])]
        exact ⟨hcid, hcalls, Or.inl hw2⟩
  | Reply p =>
      by_cases hs : a.stopped = true
      · rw [stepEvent_stopped decode ser a _ hs]; exact ⟨hcid, hcalls, hw⟩
      · have hw2 : a.waiting = some PendingKind.Register := by
          cases hw with
          | inl h => exact h
          | inr h => exact absurd h hs
        simp only [stepEvent]
        rw [if_neg hs, hw2]
        cases p with
        | RegisterReply r =>
            cases r with
            | Ok cid => simp [isRegOkEvent] at he
            | Err =>
                simp only [applyReply, started_then]
                rw [drain_stopped decode ser _ rfl]
                exact ⟨hcid, hcalls, Or.inr rfl⟩
        | RoomReply r =>
            simp only [applyReply]
            exact ⟨hcid, hcalls, hw⟩

/-- A stimulus list without a successful registration reply preserves the
registration phase invariant. -/
theorem regPhase_run {U : Type} (decode : String → Option RequestMessage)
    (ser : ResponseMessage → Option String) (a : ActorState U)
    (evs : List Event) (hInv : RegPhaseInv a)
    (h : evs.all (fun e => !isRegOkEvent e) = true) :
    RegPhaseInv (run decode ser a evs) := by
  induction evs generalizing a with
  | nil => exact hInv
  | cons e evs ih =>
      rw [List.all_cons, Bool.and_eq_true] at h
      exact ih (stepEvent decode ser a e)
        (regPhase_step decode ser a e hInv (by simpa using h.1)) h.2

/-- Claim C8: starting from a fresh connection, as long as no successful
registration reply has been delivered, the session still holds the
sentinel DEFAULT_CLIENT_ID and no room operation call (create-room or
find-room) has been issued to the collaborator: a session never issues a
room operation while its client id is unassigned. -/
theorem spec_c8_no_room_op_unregistered {U : Type} (sa : ServerAddr)
    (um : U) (ui : UserInfo) (decode : String → Option RequestMessage)
    (ser : ResponseMessage → Option String) (evs : List Event)
    (h : evs.all (fun e => !isRegOkEvent e) = true) :
    (run decode ser (ActorState.init sa um ui) evs).sess.client_id =
      DEFAULT_CLIENT_ID ∧
    (run decode ser (ActorState.init sa um ui) evs).calls.all
      (fun c => !isRoomOp c) = true := by
  have hInv := regPhase_run decode ser (ActorState.init sa um ui) evs
    ⟨rfl, rfl, Or.inl rfl⟩ h
  exact ⟨hInv.1, hInv.2.1⟩

/-- Witness for claim C8 at a concrete run: a queued frame, then a failed
registration, then another frame. -/
theorem spec_c8_witness :
    evs0.all (fun e => !isRegOkEvent e) = true ∧
    (run decode0 ser0 (ActorState.init 0 () ui0) evs0).sess.client_id =
      DEFAULT_CLIENT_ID ∧
    (run decode0 ser0 (ActorState.init 0 () ui0) evs0).calls.all
      (fun c => !isRoomOp c) = true :=
  ⟨rfl,
    (spec_c8_no_room_op_unregistered 0 () ui0 decode0 ser0 evs0 rfl).1,
    (spec_c8_no_room_op_unregistered 0 () ui0 decode0 ser0 evs0 rfl).2⟩

/-- Counterexample to claim C4 as stated: a close frame received while a
create-room call is in flight does not transition the session to Closed;
the frame merely stays queued, because the wait on the pending call pauses
all mailbox processing. -/
theorem spec_c4_counterexample :
    (stepEvent decodeJ ser0 a0wait
      (Event.In (InEvent.Frame (WsMessage.Close none)))).stopped = false ∧
    (stepEvent decodeJ ser0 a0wait
      (Event.In (InEvent.Frame (WsMessage.Close none)))).queue =
      [InEvent.Frame (WsMessage.Close none)] :=
  ⟨rfl, rfl⟩

/-- Claim C4 amended: dispatching a close frame unconditionally requests a
stop, whatever the session state; a close frame that arrives while a
collaborator call is in flight is not dispatched but queued; a stopped
actor processes and emits nothing further (Closed is terminal); and once
the in-flight call resolves, a queued close frame does lead to Closed,
whichever way the call resolved. -/
theorem spec_c4_close_semantics {U : Type}
    (decode : String → Option RequestMessage)
    (ser : ResponseMessage → Option String) (a : ActorState U)
    (s : Session U) (r : Option String) (k : PendingKind) (p : ReplyPayload)
    (res : Session U × Bool) :
    (streamHandle decode s (WsMessage.Close r)).stop = true ∧
    (a.stopped = false → a.waiting.isSome = true →
      stepEvent decode ser a (Event.In (InEvent.Frame (WsMessage.Close r))) =
        { a with queue := a.queue ++ [InEvent.Frame (WsMessage.Close r)] }) ∧
    (∀ e : Event, a.stopped = true → stepEvent decode ser a e = a) ∧
    (a.stopped = false → a.waiting = some k →
      a.queue = [InEvent.Frame (WsMessage.Close r)] →
      applyReply p k a.sess = some res →
      (stepEvent decode ser a (Event.Reply p)).stopped = true) := by
  refine ⟨rfl, ?_, fun e hs => stepEvent_stopped decode ser a e hs, ?_⟩
  · intro h1 h2
    simp only [stepEvent]
    rw [if_neg (by simp [h1]), drain_waiting decode ser _ (by simpa using h2)]
  · intro h1 h2 h3 h4
    obtain ⟨s2, st⟩ := res
    simp only [stepEvent]
    rw [if_neg (by simp [h1]), h2]
    simp only [h4]
    cases st with
    | true => rw [drain_stopped decode ser _ rfl]
    | false =>
        simp [drain, h3, queueMeasure, drainGo, streamHandle,
          drainGo_stopped]

/-- Witness for the amended claim C4: with a close frame queued behind an
in-flight create-room call, a successful reply still leads to a stopped
actor; and a close frame arriving during the in-flight call is queued. -/
theorem spec_c4_witness :
    (stepEvent decodeJ ser0 aCloseQ
      (Event.Reply (ReplyPayload.RoomReply
        (RustResult.Ok (RustResult.Ok 3))))).stopped = true ∧
    stepEvent decodeJ ser0 a0wait
      (Event.In (InEvent.Frame (WsMessage.Close none))) =
      { a0wait with
        queue := a0wait.queue ++ [InEvent.Frame (WsMessage.Close none)] } := by
  constructor
  · exact (spec_c4_close_semantics decodeJ ser0 aCloseQ sActive none
      PendingKind.CreateRoomCall
      (ReplyPayload.RoomReply (RustResult.Ok (RustResult.Ok 3)))
      ({ sActive with room_addr := some 3 }, false)).2.2.2 rfl rfl rfl rfl
  · exact (spec_c4_close_semantics decodeJ ser0 a0wait sActive none
      PendingKind.CreateRoomCall
      (ReplyPayload.RoomReply RustResult.Err) (sActive, true)).2.1 rfl rfl

/-- Counterexample to claim C6 as stated: while the reply to a create-room
call is awaited, an arriving text frame is not decoded or dispatched (the
session issues no call and nothing changes); the frame is only queued: the
wait on the collaborator call does block the processing of further
inbound frames. -/
theorem spec_c6_counterexample :
    stepEvent decodeJ ser0 a0wait
      (Event.In (InEvent.Frame (WsMessage.Text "join"))) =
      { a0wait with queue := [InEvent.Frame (WsMessage.Text "join")] } ∧
    (stepEvent decodeJ ser0 a0wait
      (Event.In (InEvent.Frame (WsMessage.Text "join")))).calls = [] :=
  ⟨rfl, rfl⟩

/-- Claim C6 amended: issuing a collaborator call suspends the whole
mailbox processing of the connection until the reply arrives: any inbound
event delivered while the call is pending is appended to the queue and
nothing else happens (no decoding, no dispatch, no state change, no
output); queued events are processed only after the reply is consumed. -/
theorem spec_c6_wait_blocks {U : Type}
    (decode : String → Option RequestMessage)
    (ser : ResponseMessage → Option String) (a : ActorState U) (e : InEvent)
    (h1 : a.stopped = false) (h2 : a.waiting.isSome = true) :
    stepEvent decode ser a (Event.In e) =
      { a with queue := a.queue ++ [e] } := by
  simp only [stepEvent]
  rw [if_neg (by simp [h1]), drain_waiting decode ser _ (by simpa using h2)]

/-- Witness for the amended claim C6 at a concrete waiting actor and
frame. -/
theorem spec_c6_witness :
    stepEvent decodeJ ser0 a0wait
      (Event.In (InEvent.Frame (WsMessage.Text "join"))) =
      { a0wait with
        queue := a0wait.queue ++ [InEvent.Frame (WsMessage.Text "join")] } :=
  spec_c6_wait_blocks decodeJ ser0 a0wait
    (InEvent.Frame (WsMessage.Text "join")) rfl rfl

end Scrum
